import Mathlib

/-!
Verification of mikrotik-wifi: connection lifecycle and domain operations.

A shallow embedding of `src/mikrotik-wifi/main.go`.

The program talks to two external collaborators: the operating system
(environment variables, process exit) and the RouterOS client library
(`routeros.Dial`, `Client.Run`).  The library is modelled as an arbitrary
`Device`: a pair of functions over an arbitrary world state `σ`, so that a
statement quantified over every device and every world covers every outcome
of every remote call.  Everything the program does that is visible from the
outside is appended to an event log (`State.out`), in program order.

Go's package-level variables (`router_client`, `address`, `username`,
`password`, `port`) are the fields of `State`.  A procedure is a function from
a state to an `Outcome`: it returns normally, or the process has exited
(`os.Exit`), or it has dereferenced a nil `router_client`.

The claims are stated on these procedures, each run without interruption.
The last two sections run the same code on goroutines, one step at a time
under an arbitrary schedule, relate each goroutine running alone to the
procedure it runs, and count the liveness goroutines under every schedule.
-/

namespace MikrotikWifi

/-! ## Data model -/

/-- Handle of an authenticated session: a non-nil `*routeros.Client`. -/
abbrev Client := Nat

/-- One reply record: the `Map` of a `proto.Sentence`, as an association list. -/
abbrev Sentence := List (String × String)

/-- Look a key up in a reply record; Go's `re.Map[key]` yields `""` when absent. -/
def map_index (re : Sentence) (key : String) : String :=
  (re.lookup key).getD ""

/-- The `Re` field of a `routeros.Reply`. -/
structure Reply where
  Re : List Sentence
deriving DecidableEq

/-- Externally visible actions of the process, in program order. -/
inductive Event where
  /-- One line on standard output, by `fmt.Println` or `fmt.Printf`. -/
  | println (line : String)
  /-- One message printed with `color.Red`. -/
  | red (msg : String)
  /-- One message printed with `color.Green`. -/
  | green (msg : String)
  /-- One message logged with `log.Printf`. -/
  | log (msg : String)
  /-- A call `routeros.Dial(target, username, password)`. -/
  | dial (target username password : String)
  /-- A call `client.Run(sentence...)`. -/
  | run (client : Client) (sentence : List String)
  /-- A call `time.Sleep(d)`, `d` in nanoseconds. -/
  | sleep (d : Nat)
  /-- The statement `go keep_alive_connection()`. -/
  | go_keep_alive
deriving DecidableEq

/-- The RouterOS client library and the router behind it.  Errors are carried
as their `Error()` text. -/
structure Device (σ : Type) where
  Dial : σ → String → String → String → Except String Client × σ
  Run : σ → Client → List String → Except String Reply × σ

/-- Package-level variables of `main.go`, the world and the event log. -/
structure State (σ : Type) where
  router_client : Option Client
  address : String
  username : String
  password : String
  port : Int
  world : σ
  out : List Event

/-- How a procedure ends. -/
inductive Outcome (α : Type) where
  /-- The procedure returned; the process goes on. -/
  | running (s : α)
  /-- The process terminated with the given status. -/
  | exited (code : Nat) (s : α)
  /-- Nil pointer dereference of `router_client`. -/
  | panicked (s : α)

/-- The state an outcome ends in. -/
def Outcome.state {α : Type} : Outcome α → α
  | .running s => s
  | .exited _ s => s
  | .panicked s => s

/-- The exit status, when the process has exited. -/
def Outcome.status {α : Type} : Outcome α → Option Nat
  | .exited code _ => some code
  | _ => none

variable {σ : Type}

/-- Append one event to the log. -/
def emit (s : State σ) (e : Event) : State σ :=
  { s with out := s.out ++ [e] }

/-- The variable `keep_alive_interval`: `30 * time.Second`, in nanoseconds. -/
def keep_alive_interval : Nat := 30 * 1000000000

/-- The verb `%d` of `fmt.Sprintf` on an `int`: decimal, `-` for negatives. -/
def fmt_d : Int → String
  | .ofNat n => Nat.repr n
  | .negSucc n => "-" ++ Nat.repr (n + 1)

/-! ## Connection lifecycle -/

/-- Function `init_routeros_connection` (main.go:25-35). -/
def init_routeros_connection (D : Device σ) (s : State σ) : Outcome (State σ) :=
  let full_address := s.address ++ ":" ++ fmt_d s.port
  let s1 := emit s (.println ("Attempting to connect to RouterOS at address: " ++ full_address))
  let r := D.Dial s1.world full_address s1.username s1.password
  let s2 := { emit s1 (.dial full_address s1.username s1.password) with world := r.2 }
  match r.1 with
  | .error err =>
    .exited 1 (emit { s2 with router_client := none } (.red ("Failed to connect to RouterOS: " ++ err)))
  | .ok c =>
    .running (emit { s2 with router_client := some c } .go_keep_alive)

/-- The call `router_client.Run(sentence...)`: `none` when `router_client` is nil. -/
def router_client_Run (D : Device σ) (s : State σ) (sentence : List String) :
    Option (Except String Reply × State σ) :=
  match s.router_client with
  | none => none
  | some c =>
    let r := D.Run s.world c sentence
    some (r.1, { emit s (.run c sentence) with world := r.2 })

/-- One pass through the body of the `for` loop of `keep_alive_connection`
(main.go:38-45). -/
def keep_alive_iteration (D : Device σ) (s : State σ) : Outcome (State σ) :=
  let s1 := emit s (.sleep keep_alive_interval)
  match router_client_Run D s1 ["/system/identity/print"] with
  | none => .panicked s1
  | some (.ok _, s2) => .running s2
  | some (.error err, s2) =>
    init_routeros_connection D
      (emit s2 (.log ("Keep alive failed, attempting to reconnect: " ++ err)))

/-- Function `keep_alive_connection` (main.go:37-46): the loop never returns, so the
model runs its first `n` iterations. -/
def keep_alive_connection (D : Device σ) : Nat → State σ → Outcome (State σ)
  | 0, s => .running s
  | n + 1, s =>
    match keep_alive_iteration D s with
    | .running s1 => keep_alive_connection D n s1
    | o => o

/-! ## Environment resolution -/

/-- The process environment: `os.LookupEnv`. -/
abbrev Env := String → Option String

/-- Function `get_env_with_default` (main.go:48-53). -/
def get_env_with_default (env : Env) (key : String) (default_val : String) : String :=
  match env key with
  | some value => value
  | none => default_val

/-- Value of an ASCII decimal digit. -/
def digit_val (ch : Char) : Option Nat :=
  if '0' ≤ ch ∧ ch ≤ '9' then some (ch.toNat - 48) else none

/-- Accumulate a run of decimal digits, most significant first. -/
def parse_digits : List Char → Nat → Option Nat
  | [], n => some n
  | ch :: cs, n =>
    match digit_val ch with
    | none => none
    | some d => parse_digits cs (n * 10 + d)

/-- The library function `strconv.Atoi` for a 64-bit `int`: an optional sign,
then at least one decimal digit and nothing else, the value within
`[-2^63, 2^63)`; `none` stands for a non-nil error. -/
def Atoi (s : String) : Option Int :=
  match s.data with
  | [] => none
  | c :: cs =>
    let body := if c = '-' ∨ c = '+' then cs else c :: cs
    match body with
    | [] => none
    | _ :: _ =>
      match parse_digits body 0 with
      | none => none
      | some n =>
        let v : Int := if c = '-' then -(n : Int) else (n : Int)
        if -((2 : Int) ^ 63) ≤ v ∧ v < (2 : Int) ^ 63 then some v else none

/-- Function `get_port_from_env_or_default` (main.go:55-62). -/
def get_port_from_env_or_default (env : Env) (key : String) (default_val : Int) : Int :=
  match env key with
  | some value =>
    match Atoi value with
    | some intVal => intVal
    | none => default_val
  | none => default_val

/-- The package-level variables before `main` runs: Go zero values. -/
def initial_state (w : σ) : State σ :=
  { router_client := none, address := "", username := "", password := "", port := 0,
    world := w, out := [] }

/-- The four assignments that open `main` (main.go:65-68). -/
def resolve_env (env : Env) (s : State σ) : State σ :=
  { s with
    address := get_env_with_default env "MIKROTIK_ADDRESS" "192.168.88.1"
    username := get_env_with_default env "MIKROTIK_USERNAME" "admin"
    password := get_env_with_default env "MIKROTIK_PASSWORD" ""
    port := get_port_from_env_or_default env "MIKROTIK_PORT" 8728 }

/-! ## Domain operations -/

/-- Function `list_networks` (main.go:132-142). -/
def list_networks (D : Device σ) (s : State σ) : Outcome (State σ) :=
  match router_client_Run D s ["/interface/wireless/print"] with
  | none => .panicked s
  | some (.error err, s1) => .running (emit s1 (.red ("Failed to list networks: " ++ err)))
  | some (.ok resp, s1) =>
    .running (resp.Re.foldl (fun st re => emit st (.println (map_index re "ssid"))) s1)

/-- Function `create_network` (main.go:144-164). -/
def create_network (D : Device σ) (s : State σ) (ssid_name password : String) :
    Outcome (State σ) :=
  match router_client_Run D s ["/interface/wireless/print", "?ssid=" ++ ssid_name] with
  | none => .panicked s
  | some (.error err, s1) =>
    .running (emit s1 (.red ("Error checking for existing network: " ++ err)))
  | some (.ok _, s1) =>
    match router_client_Run D s1 ["/interface/wireless/security-profiles/add",
        "=name=" ++ ssid_name, "=wpa2-pre-shared-key=" ++ password] with
    | none => .panicked s1
    | some (.error err, s2) =>
      .running (emit s2 (.red ("Failed to create security profile: " ++ err)))
    | some (.ok _, s2) =>
      match router_client_Run D s2 ["/interface/wireless/add", "=name=" ++ ssid_name,
          "=ssid=" ++ ssid_name, "=security-profile=" ++ ssid_name,
          "=master-interface=wlan1"] with
      | none => .panicked s2
      | some (.error err, s3) => .running (emit s3 (.red ("Failed to create network: " ++ err)))
      | some (.ok _, s3) =>
        .running (emit s3 (.green ("Network created successfully: " ++ ssid_name)))

/-- The error half of a call result: Go's `_, err = ...`. -/
def err_of {α : Type} : Except String α → Option String
  | .error err => some err
  | .ok _ => none

/-- Function `update_network` (main.go:166-185). -/
def update_network (D : Device σ) (s : State σ) (ssid_name property new_value : String) :
    Outcome (State σ) :=
  match router_client_Run D s ["/interface/wireless/print", "?ssid=" ++ ssid_name] with
  | none => .panicked s
  | some (.error err, s1) =>
    .running (emit s1 (.red ("Error checking for existing network: " ++ err)))
  | some (.ok _, s1) =>
    let step : Option (Option String × State σ) :=
      if property = "ssid" then
        (router_client_Run D s1 ["/interface/wireless/set", "?ssid=" ++ ssid_name,
          "=ssid=" ++ new_value]).map (fun r => (err_of r.1, r.2))
      else if property = "password" then
        (router_client_Run D s1 ["/interface/wireless/security-profiles/set",
          "?name=" ++ ssid_name, "=wpa2-pre-shared-key=" ++ new_value]).map
          (fun r => (err_of r.1, r.2))
      else some (none, s1)
    match step with
    | none => .panicked s1
    | some (some err, s2) => .running (emit s2 (.red ("Failed to update network: " ++ err)))
    | some (none, s2) => .running (emit s2 (.green ("Network updated successfully: " ++ ssid_name)))

/-- Function `remove_network` (main.go:187-195). -/
def remove_network (D : Device σ) (s : State σ) (ssid_name : String) : Outcome (State σ) :=
  match router_client_Run D s ["/interface/wireless/remove", "?ssid=" ++ ssid_name] with
  | none => .panicked s
  | some (.error err, s1) => .running (emit s1 (.red ("Failed to remove network: " ++ err)))
  | some (.ok _, s1) => .running (emit s1 (.green ("Network removed successfully: " ++ ssid_name)))

/-! ## Command dispatch -/

/-- A subcommand with its positional arguments, as handed to its `Run` hook
(main.go:97-130). -/
inductive Command where
  | list
  | create (ssid password : String)
  | update (ssid property new_value : String)
  | remove (ssid : String)
deriving DecidableEq

/-- The `Run` hook of a subcommand. -/
def Command.Run (D : Device σ) (s : State σ) : Command → Outcome (State σ)
  | .list => list_networks D s
  | .create ssid password => create_network D s ssid password
  | .update ssid property new_value => update_network D s ssid property new_value
  | .remove ssid => remove_network D s ssid

/-- The hooks `root_cmd.Execute` runs for a subcommand: `PersistentPreRun`
(main.go:73-75), then the subcommand's `Run`. -/
def Execute (D : Device σ) (s : State σ) (cmd : Command) : Outcome (State σ) :=
  match init_routeros_connection D s with
  | .running s1 => cmd.Run D s1
  | o => o

/-- Values of the persistent flags given on the command line (main.go:78-81);
`none` for a flag that was not given. -/
structure Flags where
  address : Option String
  username : Option String
  password : Option String
  port : Option Int
deriving DecidableEq

/-- Flag parsing writes each given flag into its variable. -/
def apply_flags (f : Flags) (s : State σ) : State σ :=
  { s with
    address := f.address.getD s.address
    username := f.username.getD s.username
    password := f.password.getD s.password
    port := f.port.getD s.port }

/-- The part of `main` before `root_cmd.Execute` (main.go:65-89): resolve the
environment and print the debug line. -/
def startup (w : σ) (env : Env) : State σ :=
  let s1 := resolve_env env (initial_state w)
  emit s1 (.println ("Debug - Address: " ++ s1.address ++ ", Username: " ++ s1.username
    ++ ", Password: " ++ s1.password ++ ", Port: " ++ fmt_d s1.port))

/-- Function `main` (main.go:64-95) for a command line that cobra accepts:
start up, parse the flags, run the hooks, and end the process with status 0
when they return. -/
def main (D : Device σ) (w : σ) (env : Env) (f : Flags) (cmd : Command) : Outcome (State σ) :=
  match Execute D (apply_flags f (startup w env)) cmd with
  | .running s3 => .exited 0 s3
  | o => o

/-- The target string `init_routeros_connection` builds with
`fmt.Sprintf("%s:%d", address, port)`. -/
def full_address (s : State σ) : String :=
  s.address ++ ":" ++ fmt_d s.port

/-! ## Observations on the event log -/

/-- The event is a call of `routeros.Dial`. -/
def Event.is_dial : Event → Bool
  | .dial _ _ _ => true
  | _ => false

/-- The event is a call of `Client.Run`. -/
def Event.is_run : Event → Bool
  | .run _ _ => true
  | _ => false

/-- The event is a `go keep_alive_connection()`. -/
def Event.is_go : Event → Bool
  | .go_keep_alive => true
  | _ => false

/-- The event is a liveness probe that failed (its `log.Printf`). -/
def Event.is_log : Event → Bool
  | .log _ => true
  | _ => false

/-- The sentences sent with `Client.Run`, in order. -/
def commands : List Event → List (List String)
  | [] => []
  | .run _ sentence :: es => sentence :: commands es
  | _ :: es => commands es

/-- The lines printed with `fmt.Println`, in order. -/
def printed : List Event → List String
  | [] => []
  | .println line :: es => line :: printed es
  | _ :: es => printed es

/-- The state a liveness iteration is in when its probe has failed and it is
about to reconnect. -/
def after_failed_probe (D : Device σ) (s : State σ) (c : Client) (perr : String) : State σ :=
  { s with
    world := (D.Run s.world c ["/system/identity/print"]).2
    out := s.out ++ [.sleep keep_alive_interval, .run c ["/system/identity/print"],
      .log ("Keep alive failed, attempting to reconnect: " ++ perr)] }

/-- Number of liveness loops started so far; a loop never returns, so each one
started is still running while the process is. -/
def running_loops (s : State σ) : Nat :=
  s.out.countP Event.is_go

/-- The fixed sequence of sentences the claim on `create_network` names: the
existence query, the security profile, the wireless interface. -/
def create_sequence (ssid_name password : String) : List (List String) :=
  [["/interface/wireless/print", "?ssid=" ++ ssid_name],
    ["/interface/wireless/security-profiles/add", "=name=" ++ ssid_name,
      "=wpa2-pre-shared-key=" ++ password],
    ["/interface/wireless/add", "=name=" ++ ssid_name, "=ssid=" ++ ssid_name,
      "=security-profile=" ++ ssid_name, "=master-interface=wlan1"]]

/-- The claim's reading of "no retry, stop at the first failure": send the
sentences in order, each once, up to and including the first one that fails.
Gives the sentences sent, whether all succeeded, and the world afterwards. -/
def send_in_order (D : Device σ) (c : Client) :
    List (List String) → σ → List (List String) × Bool × σ
  | [], w => ([], true, w)
  | q :: qs, w =>
    match (D.Run w c q).1 with
    | .error _ => ([q], false, (D.Run w c q).2)
    | .ok _ =>
      let rest := send_in_order D c qs (D.Run w c q).2
      (q :: rest.1, rest.2.1, rest.2.2)

/-! ## Goroutines

The procedures above are the source functions run without interruption.  The
process runs them on several goroutines: the main goroutine and one goroutine
for each `go keep_alive_connection()` executed.  Below, each goroutine has a
control point, a step runs one goroutine from its control point to the next
one, and a schedule chooses which goroutine steps; every access to a
package-level variable and every call of the library is a step of its own.
Time is left out: a schedule may let any goroutine step at any moment, so
the schedules include those the sleeps allow. -/

/-- How the process stops. -/
inductive Halt where
  /-- By `os.Exit(code)`, or with status 0 when `main` returns. -/
  | exit (code : Nat)
  /-- By a nil pointer dereference of `router_client`. -/
  | panic
deriving DecidableEq

/-- Control points of a goroutine inside `init_routeros_connection`
(main.go:25-35). -/
inductive InitPc where
  /-- At `fmt.Sprintf` and `fmt.Println` (lines 26-28). -/
  | announce
  /-- At the call of `routeros.Dial` (line 29), holding `full_address`. -/
  | dial (full_address : String)
  /-- At the assignment of what `routeros.Dial` returned to `router_client`
  and `err` (line 29). -/
  | assign (r : Except String Client)
  /-- At `color.Red` (line 31), holding `err`. -/
  | report (err : String)
  /-- At `os.Exit(1)` (line 32). -/
  | os_exit
  /-- At `go keep_alive_connection()` (line 34). -/
  | spawn

/-- Where a goroutine goes after a step inside `init_routeros_connection`. -/
inductive InitNext where
  /-- On to the next control point. -/
  | goto (p : InitPc)
  /-- The process stops. -/
  | halt (h : Halt)
  /-- The `go` statement has run and the function returns to its caller. -/
  | ret

/-- One step of a goroutine inside `init_routeros_connection`. -/
def init_step (D : Device σ) (s : State σ) : InitPc → State σ × InitNext
  | .announce =>
    (emit s (.println ("Attempting to connect to RouterOS at address: " ++
        (s.address ++ ":" ++ fmt_d s.port))),
      .goto (.dial (s.address ++ ":" ++ fmt_d s.port)))
  | .dial full_address =>
    ({ emit s (.dial full_address s.username s.password) with
        world := (D.Dial s.world full_address s.username s.password).2 },
      .goto (.assign (D.Dial s.world full_address s.username s.password).1))
  | .assign (.error err) => ({ s with router_client := none }, .goto (.report err))
  | .assign (.ok c) => ({ s with router_client := some c }, .goto .spawn)
  | .report err => (emit s (.red ("Failed to connect to RouterOS: " ++ err)), .goto .os_exit)
  | .os_exit => (s, .halt (.exit 1))
  | .spawn => (emit s .go_keep_alive, .ret)

/-- Control points of a goroutine running `keep_alive_connection`
(main.go:37-46). -/
inductive LoopPc where
  /-- At `time.Sleep` (line 39). -/
  | sleep
  /-- At the read of `router_client` for the probe (line 40). -/
  | load
  /-- At the call of `Run` on the session that was read (line 40). -/
  | call (c : Option Client)
  /-- At `log.Printf` (line 42), holding `err`. -/
  | log (err : String)
  /-- Inside the call of `init_routeros_connection` (line 43). -/
  | connect (p : InitPc)

/-- What is left to run of a subcommand's `Run` hook: its outputs and its
calls of `router_client.Run`, each call continuing with what it returned. -/
inductive Prog where
  /-- The hook returns. -/
  | ret
  /-- A line by `fmt.Println`, then the rest. -/
  | println (line : String) (k : Prog)
  /-- A message by `color.Red`, then the rest. -/
  | red (msg : String) (k : Prog)
  /-- A message by `color.Green`, then the rest. -/
  | green (msg : String) (k : Prog)
  /-- A call `router_client.Run(sentence...)`, then the rest. -/
  | run (sentence : List String) (k : Except String Reply → Prog)

/-- The hook `list_networks` (main.go:132-142), step by step. -/
def list_networks_prog : Prog :=
  .run ["/interface/wireless/print"] fun r =>
    match r with
    | .error err => .red ("Failed to list networks: " ++ err) .ret
    | .ok resp => resp.Re.foldr (fun re k => .println (map_index re "ssid") k) .ret

/-- The hook `create_network` (main.go:144-164), step by step. -/
def create_network_prog (ssid_name password : String) : Prog :=
  .run ["/interface/wireless/print", "?ssid=" ++ ssid_name] fun r =>
    match r with
    | .error err => .red ("Error checking for existing network: " ++ err) .ret
    | .ok _ =>
      .run ["/interface/wireless/security-profiles/add", "=name=" ++ ssid_name,
          "=wpa2-pre-shared-key=" ++ password] fun r =>
        match r with
        | .error err => .red ("Failed to create security profile: " ++ err) .ret
        | .ok _ =>
          .run ["/interface/wireless/add", "=name=" ++ ssid_name, "=ssid=" ++ ssid_name,
              "=security-profile=" ++ ssid_name, "=master-interface=wlan1"] fun r =>
            match r with
            | .error err => .red ("Failed to create network: " ++ err) .ret
            | .ok _ => .green ("Network created successfully: " ++ ssid_name) .ret

/-- The end of `update_network` (main.go:179-184): report on `err`. -/
def update_report (ssid_name : String) : Option String → Prog
  | some err => .red ("Failed to update network: " ++ err) .ret
  | none => .green ("Network updated successfully: " ++ ssid_name) .ret

/-- The hook `update_network` (main.go:166-185), step by step. -/
def update_network_prog (ssid_name property new_value : String) : Prog :=
  .run ["/interface/wireless/print", "?ssid=" ++ ssid_name] fun r =>
    match r with
    | .error err => .red ("Error checking for existing network: " ++ err) .ret
    | .ok _ =>
      if property = "ssid" then
        .run ["/interface/wireless/set", "?ssid=" ++ ssid_name, "=ssid=" ++ new_value]
          fun r => update_report ssid_name (err_of r)
      else if property = "password" then
        .run ["/interface/wireless/security-profiles/set", "?name=" ++ ssid_name,
          "=wpa2-pre-shared-key=" ++ new_value] fun r => update_report ssid_name (err_of r)
      else update_report ssid_name none

/-- The hook `remove_network` (main.go:187-195), step by step. -/
def remove_network_prog (ssid_name : String) : Prog :=
  .run ["/interface/wireless/remove", "?ssid=" ++ ssid_name] fun r =>
    match r with
    | .error err => .red ("Failed to remove network: " ++ err) .ret
    | .ok _ => .green ("Network removed successfully: " ++ ssid_name) .ret

/-- The `Run` hook of a subcommand, step by step. -/
def Command.prog : Command → Prog
  | .list => list_networks_prog
  | .create ssid password => create_network_prog ssid password
  | .update ssid property new_value => update_network_prog ssid property new_value
  | .remove ssid => remove_network_prog ssid

/-- A hook run without interruption. -/
def exec_prog (D : Device σ) : Prog → State σ → Outcome (State σ)
  | .ret, s => .running s
  | .println line k, s => exec_prog D k (emit s (.println line))
  | .red msg k, s => exec_prog D k (emit s (.red msg))
  | .green msg k, s => exec_prog D k (emit s (.green msg))
  | .run sentence k, s =>
    match router_client_Run D s sentence with
    | none => .panicked s
    | some (r, s1) => exec_prog D (k r) s1

/-- Control points of the main goroutine from `PersistentPreRun` on. -/
inductive MainPc where
  /-- Inside the call of `init_routeros_connection` (main.go:74). -/
  | connect (p : InitPc)
  /-- Inside the subcommand's `Run` hook, with what is left of it. -/
  | hook (p : Prog)
  /-- At the call of `Run` on the session that was read, inside the hook. -/
  | call (c : Option Client) (sentence : List String) (k : Except String Reply → Prog)

/-- The process: the shared variables, world and log, the subcommand chosen,
the control point of the main goroutine and of each liveness goroutine in
the order they were started, and how the process has stopped if it has. -/
structure Sys (σ : Type) where
  shared : State σ
  cmd : Command
  main : MainPc
  loops : List LoopPc
  halted : Option Halt

/-- A goroutine. -/
inductive Tid where
  /-- The main goroutine. -/
  | main
  /-- The liveness goroutine started `i`-th, counting from 0. -/
  | loop (i : Nat)
deriving DecidableEq

/-- The process when `root_cmd.Execute` calls `PersistentPreRun`. -/
def boot (s : State σ) (cmd : Command) : Sys σ :=
  { shared := s, cmd := cmd, main := .connect .announce, loops := [], halted := none }

/-- One step of the main goroutine. -/
def main_step (D : Device σ) (x : Sys σ) : MainPc → Sys σ
  | .connect p =>
    match init_step D x.shared p with
    | (s, .goto q) => { x with shared := s, main := .connect q }
    | (s, .halt h) => { x with shared := s, halted := some h }
    | (s, .ret) => { x with shared := s, main := .hook x.cmd.prog, loops := x.loops ++ [.sleep] }
  | .hook .ret => { x with halted := some (.exit 0) }
  | .hook (.println line k) => { x with shared := emit x.shared (.println line), main := .hook k }
  | .hook (.red msg k) => { x with shared := emit x.shared (.red msg), main := .hook k }
  | .hook (.green msg k) => { x with shared := emit x.shared (.green msg), main := .hook k }
  | .hook (.run sentence k) => { x with main := .call x.shared.router_client sentence k }
  | .call none _ _ => { x with halted := some .panic }
  | .call (some c) sentence k =>
    { x with
      shared := { emit x.shared (.run c sentence) with world := (D.Run x.shared.world c sentence).2 }
      main := .hook (k (D.Run x.shared.world c sentence).1) }

/-- One step of the liveness goroutine `i`, which is at the given control
point. -/
def loop_step (D : Device σ) (x : Sys σ) (i : Nat) : LoopPc → Sys σ
  | .sleep =>
    { x with shared := emit x.shared (.sleep keep_alive_interval), loops := x.loops.set i .load }
  | .load => { x with loops := x.loops.set i (.call x.shared.router_client) }
  | .call none => { x with halted := some .panic }
  | .call (some c) =>
    { x with
      shared := { emit x.shared (.run c ["/system/identity/print"]) with
        world := (D.Run x.shared.world c ["/system/identity/print"]).2 }
      loops := x.loops.set i
        (match (D.Run x.shared.world c ["/system/identity/print"]).1 with
          | .ok _ => .sleep
          | .error err => .log err) }
  | .log err =>
    { x with
      shared := emit x.shared (.log ("Keep alive failed, attempting to reconnect: " ++ err))
      loops := x.loops.set i (.connect .announce) }
  | .connect p =>
    match init_step D x.shared p with
    | (s, .goto q) => { x with shared := s, loops := x.loops.set i (.connect q) }
    | (s, .halt h) => { x with shared := s, halted := some h }
    | (s, .ret) => { x with shared := s, loops := x.loops.set i .sleep ++ [.sleep] }

/-- One step of the process by the goroutine chosen; `none` when the process
has stopped or the goroutine does not exist. -/
def step (D : Device σ) (t : Tid) (x : Sys σ) : Option (Sys σ) :=
  match x.halted with
  | some _ => none
  | none =>
    match t with
    | .main => some (main_step D x x.main)
    | .loop i =>
      match x.loops[i]? with
      | none => none
      | some pc => some (loop_step D x i pc)

/-- The process after the steps of a schedule, from left to right. -/
def run (D : Device σ) : List Tid → Sys σ → Option (Sys σ)
  | [], x => some x
  | t :: ts, x =>
    match step D t x with
    | none => none
    | some y => run D ts y

/-- The goroutine is inside `init_routeros_connection` and has made its dial. -/
def InitPc.dialed : InitPc → Bool
  | .announce => false
  | .dial _ => false
  | _ => true

/-- The liveness goroutine is inside a reconnect and has made its dial. -/
def LoopPc.dialed : LoopPc → Bool
  | .connect p => p.dialed
  | _ => false

/-- The liveness goroutine is inside a reconnect and has yet to dial. -/
def LoopPc.dialing : LoopPc → Bool
  | .connect p => !p.dialed
  | _ => false

/-- The main goroutine is inside the initial connect and has made its dial. -/
def MainPc.dialed : MainPc → Bool
  | .connect p => p.dialed
  | _ => false

/-- The main goroutine is inside the initial connect and has yet to dial. -/
def MainPc.dialing : MainPc → Bool
  | .connect p => !p.dialed
  | _ => false

/-- Number of goroutines inside a connect whose dial has been made but whose
`go` statement, or exit, has not been reached. -/
def Sys.after_dial (x : Sys σ) : Nat :=
  x.main.dialed.toNat + x.loops.countP LoopPc.dialed

/-- Number of goroutines inside a connect whose dial has yet to be made. -/
def Sys.before_dial (x : Sys σ) : Nat :=
  x.main.dialing.toNat + x.loops.countP LoopPc.dialing

/-! ## Sample devices -/

/-- A scripted device: dial and run answers are taken from two lists, in
order; when a list is used up the call fails with `"EOF"`.  Handles are
numbered from the script. -/
structure Script where
  dials : List (Except String Client)
  runs : List (Except String Reply)

/-- The device that plays a `Script`. -/
def scripted : Device Script :=
  { Dial := fun w _ _ _ =>
      match w.dials with
      | [] => (.error "EOF", w)
      | r :: rest => (r, { w with dials := rest })
    Run := fun w _ _ =>
      match w.runs with
      | [] => (.error "EOF", w)
      | r :: rest => (r, { w with runs := rest }) }

/-- A state over a scripted device: the default connection parameters, an
empty password and an empty log. -/
def sample (client : Option Client) (dials : List (Except String Client))
    (runs : List (Except String Reply)) : State Script :=
  { router_client := client, address := "192.168.88.1", username := "admin", password := "",
    port := 8728, world := { dials := dials, runs := runs }, out := [] }

/-- An environment that sets the password to the empty string and the port to
`8729`, and nothing else. -/
def sample_env : Env := fun key =>
  if key = "MIKROTIK_PASSWORD" then some ""
  else if key = "MIKROTIK_PORT" then some "8729"
  else none

/-! ## Lemmas on the event log -/

@[simp] theorem commands_append (xs ys : List Event) :
    commands (xs ++ ys) = commands xs ++ commands ys := by
  induction xs with
  | nil => rfl
  | cons e es ih => cases e <;> simp [commands, ih]

@[simp] theorem printed_append (xs ys : List Event) :
    printed (xs ++ ys) = printed xs ++ printed ys := by
  induction xs with
  | nil => rfl
  | cons e es ih => cases e <;> simp [printed, ih]

/-! ## Lemmas on the connection lifecycle -/

theorem init_ok (D : Device σ) (s : State σ) (c : Client)
    (h : (D.Dial s.world (full_address s) s.username s.password).1 = .ok c) :
    init_routeros_connection D s = .running
      { s with
        router_client := some c
        world := (D.Dial s.world (full_address s) s.username s.password).2
        out := s.out ++
          [.println ("Attempting to connect to RouterOS at address: " ++ full_address s),
            .dial (full_address s) s.username s.password, .go_keep_alive] } := by
  unfold full_address at h
  simp [init_routeros_connection, emit, h, full_address]

theorem init_error (D : Device σ) (s : State σ) (err : String)
    (h : (D.Dial s.world (full_address s) s.username s.password).1 = .error err) :
    init_routeros_connection D s = .exited 1
      { s with
        router_client := none
        world := (D.Dial s.world (full_address s) s.username s.password).2
        out := s.out ++
          [.println ("Attempting to connect to RouterOS at address: " ++ full_address s),
            .dial (full_address s) s.username s.password,
            .red ("Failed to connect to RouterOS: " ++ err)] } := by
  unfold full_address at h
  simp [init_routeros_connection, emit, h, full_address]

theorem client_run (D : Device σ) (s : State σ) (c : Client) (sentence : List String)
    (h : s.router_client = some c) :
    router_client_Run D s sentence = some ((D.Run s.world c sentence).1,
      { s with world := (D.Run s.world c sentence).2, out := s.out ++ [.run c sentence] }) := by
  simp [router_client_Run, h, emit]

theorem iteration_probe_ok (D : Device σ) (s : State σ) (c : Client) (r : Reply)
    (hc : s.router_client = some c)
    (hp : (D.Run s.world c ["/system/identity/print"]).1 = .ok r) :
    keep_alive_iteration D s = .running
      { s with
        world := (D.Run s.world c ["/system/identity/print"]).2
        out := s.out ++ [.sleep keep_alive_interval, .run c ["/system/identity/print"]] } := by
  have h := client_run D (emit s (.sleep keep_alive_interval)) c ["/system/identity/print"] hc
  simp only [emit] at h
  simp [keep_alive_iteration, emit, h, hp]

theorem iteration_probe_failed (D : Device σ) (s : State σ) (c : Client) (perr : String)
    (hc : s.router_client = some c)
    (hp : (D.Run s.world c ["/system/identity/print"]).1 = .error perr) :
    keep_alive_iteration D s = init_routeros_connection D (after_failed_probe D s c perr) := by
  have h := client_run D (emit s (.sleep keep_alive_interval)) c ["/system/identity/print"] hc
  simp only [emit] at h
  simp [keep_alive_iteration, emit, h, hp, after_failed_probe]

/-! ## Claims on the connection lifecycle -/

/-- C1: when the dial made by `init_routeros_connection` fails, the process
exits with status 1, the log grows by the announcement, the dial and the error
report only (no liveness loop is started, no command is sent), and a
subcommand dispatched behind the connect is never run, from `Execute` as from
`main`; the same holds when the connect is the reconnect of a liveness
iteration whose probe failed: the iteration ends the process with status 1
after the probe, the log line and the failed dial, and no further iteration
takes place. -/
theorem dial_failure_is_fatal (D : Device σ) (s : State σ) (err : String) :
    ((D.Dial s.world (full_address s) s.username s.password).1 = .error err →
      ∃ s1, init_routeros_connection D s = .exited 1 s1 ∧
        s1.out = s.out ++
          [.println ("Attempting to connect to RouterOS at address: " ++ full_address s),
            .dial (full_address s) s.username s.password,
            .red ("Failed to connect to RouterOS: " ++ err)] ∧
        running_loops s1 = running_loops s ∧
        commands s1.out = commands s.out ∧
        ∀ cmd, Execute D s cmd = .exited 1 s1) ∧
    (∀ (w : σ) (env : Env) (f : Flags) (cmd : Command),
      (D.Dial w (full_address (apply_flags f (startup w env)))
        (apply_flags f (startup w env)).username
        (apply_flags f (startup w env)).password).1 = .error err →
      (main D w env f cmd).status = some 1 ∧
        commands (main D w env f cmd).state.out = [] ∧
        running_loops (main D w env f cmd).state = 0) ∧
    (∀ (c : Client) (perr : String), s.router_client = some c →
      (D.Run s.world c ["/system/identity/print"]).1 = .error perr →
      (D.Dial (D.Run s.world c ["/system/identity/print"]).2 (full_address s)
        s.username s.password).1 = .error err →
      ∃ s1, keep_alive_iteration D s = .exited 1 s1 ∧
        s1.out = s.out ++
          [.sleep keep_alive_interval, .run c ["/system/identity/print"],
            .log ("Keep alive failed, attempting to reconnect: " ++ perr),
            .println ("Attempting to connect to RouterOS at address: " ++ full_address s),
            .dial (full_address s) s.username s.password,
            .red ("Failed to connect to RouterOS: " ++ err)] ∧
        running_loops s1 = running_loops s ∧
        ∀ n, keep_alive_connection D (n + 1) s = .exited 1 s1) := by
  refine ⟨?_, ?_, ?_⟩
  · intro h
    refine ⟨_, init_error D s err h, rfl, ?_, ?_, ?_⟩
    · simp [running_loops, Event.is_go]
    · simp [commands]
    · intro cmd
      simp [Execute, init_error D s err h]
  · intro w env f cmd h
    have h1 := init_error D (apply_flags f (startup w env)) err h
    have hm : main D w env f cmd =
        init_routeros_connection D (apply_flags f (startup w env)) := by
      simp only [main, Execute, h1]
    rw [hm, h1]
    simp [Outcome.status, Outcome.state, running_loops, Event.is_go, commands, apply_flags,
      startup, emit, initial_state, resolve_env]
  · intro c perr hc hp hd
    have h1 := iteration_probe_failed D s c perr hc hp
    have h2 := init_error D (after_failed_probe D s c perr) err hd
    rw [h2] at h1
    refine ⟨_, h1, ?_, ?_, ?_⟩
    · simp [after_failed_probe, full_address]
    · simp [running_loops, after_failed_probe, Event.is_go]
    · intro n
      simp [keep_alive_connection, h1]

/-- Witness for C1: a router that refuses every dial and drops every probe. -/
theorem dial_failure_is_fatal_witness :
    (init_routeros_connection scripted
        (sample none [.error "refused"] [])).status = some 1 ∧
      (main scripted ⟨[.error "refused"], []⟩ (fun _ => none) ⟨none, none, none, none⟩
        (.create "guest" "secret123")).status = some 1 ∧
      (keep_alive_iteration scripted
        (sample (some 7) [.error "refused"] [.error "timeout"])).status = some 1 := by
  have h := dial_failure_is_fatal scripted (sample none [.error "refused"] []) "refused"
  have h2 := dial_failure_is_fatal scripted
    (sample (some 7) [.error "refused"] [.error "timeout"])
    "refused"
  refine ⟨?_, ?_, ?_⟩
  · obtain ⟨s1, hs, _⟩ := h.1 rfl
    rw [hs]; rfl
  · exact (h.2.1 ⟨[.error "refused"], []⟩ (fun _ => none) ⟨none, none, none, none⟩
      (.create "guest" "secret123") rfl).1
  · obtain ⟨s1, hs, _⟩ := h2.2.2 7 "timeout" rfl rfl rfl
    rw [hs]; rfl

/-- C2: `init_routeros_connection` makes exactly one dial, at the world it
was called in, with the target `address ++ ":" ++` the port in decimal and the
username and password as they are (nothing is checked, so an empty password
is dialled like any other); when the dial succeeds the procedure returns with
`router_client` the handle the dial gave; and whatever the dial answers,
`address`, `username`, `password` and `port` are as before. -/
theorem init_dials_once (D : Device σ) (s : State σ) :
    (∃ last, (init_routeros_connection D s).state.out = s.out ++
        [.println ("Attempting to connect to RouterOS at address: " ++ full_address s),
          .dial (s.address ++ ":" ++ fmt_d s.port) s.username s.password, last] ∧
        last.is_dial = false) ∧
      (init_routeros_connection D s).state.world =
        (D.Dial s.world (s.address ++ ":" ++ fmt_d s.port) s.username s.password).2 ∧
      (∀ c, (D.Dial s.world (s.address ++ ":" ++ fmt_d s.port) s.username s.password).1 = .ok c →
        ∃ s1, init_routeros_connection D s = .running s1 ∧ s1.router_client = some c) ∧
      (init_routeros_connection D s).state.address = s.address ∧
      (init_routeros_connection D s).state.username = s.username ∧
      (init_routeros_connection D s).state.password = s.password ∧
      (init_routeros_connection D s).state.port = s.port := by
  cases h : (D.Dial s.world (full_address s) s.username s.password).1 with
  | error err =>
    have h1 := init_error D s err h
    unfold full_address at h
    simp [h1, Outcome.state, h, full_address, Event.is_dial]
  | ok c =>
    have h1 := init_ok D s c h
    unfold full_address at h
    simp [h1, Outcome.state, h, full_address, Event.is_dial]

/-- Witness for C2: the default parameters with an empty password. -/
theorem init_dials_once_witness :
    ∃ s1, init_routeros_connection scripted
        (sample none [.ok 7] [])
        = .running s1 ∧ s1.router_client = some 7 :=
  (init_dials_once scripted
    (sample none [.ok 7] [])).2.2.1 7 rfl

/-- C3: in an iteration of the liveness loop, after the sleep and the probe
`/system/identity/print`: when the probe succeeds the iteration ends there,
with `router_client` as it was and no dial made; when the probe fails the
iteration is one call of `init_routeros_connection` on the state after the
log line, which makes one dial and then either starts a loop and returns or
reports and exits, so the iteration has made exactly one dial and its only
sleep comes before it. -/
theorem keep_alive_iteration_spec (D : Device σ) (s : State σ) (c : Client)
    (hc : s.router_client = some c) :
    (∀ r, (D.Run s.world c ["/system/identity/print"]).1 = .ok r →
      ∃ s1, keep_alive_iteration D s = .running s1 ∧
        s1.router_client = s.router_client ∧
        s1.out = s.out ++ [.sleep keep_alive_interval, .run c ["/system/identity/print"]]) ∧
    (∀ perr, (D.Run s.world c ["/system/identity/print"]).1 = .error perr →
      keep_alive_iteration D s = init_routeros_connection D (after_failed_probe D s c perr) ∧
      ∃ last, (keep_alive_iteration D s).state.out = s.out ++
          [.sleep keep_alive_interval, .run c ["/system/identity/print"],
            .log ("Keep alive failed, attempting to reconnect: " ++ perr),
            .println ("Attempting to connect to RouterOS at address: " ++ full_address s),
            .dial (full_address s) s.username s.password, last] ∧
        (last = .go_keep_alive ∨ ∃ err, last = .red ("Failed to connect to RouterOS: " ++ err))) := by
  refine ⟨?_, ?_⟩
  · intro r hp
    exact ⟨_, iteration_probe_ok D s c r hc hp, rfl, rfl⟩
  · intro perr hp
    have h1 := iteration_probe_failed D s c perr hc hp
    refine ⟨h1, ?_⟩
    rw [h1]
    cases h : (D.Dial (after_failed_probe D s c perr).world
        (full_address (after_failed_probe D s c perr))
        (after_failed_probe D s c perr).username (after_failed_probe D s c perr).password).1 with
    | error err =>
      rw [init_error D _ err h]
      exact ⟨_, by simp [Outcome.state, after_failed_probe, full_address], Or.inr ⟨err, rfl⟩⟩
    | ok c1 =>
      rw [init_ok D _ c1 h]
      exact ⟨_, by simp [Outcome.state, after_failed_probe, full_address], Or.inl rfl⟩

/-- Witness for C3: a probe that times out, answered by a dial that succeeds. -/
theorem keep_alive_iteration_spec_witness :
    keep_alive_iteration scripted
        (sample (some 7) [.ok 8] [.error "timeout"]) =
      init_routeros_connection scripted
        (after_failed_probe scripted
          (sample (some 7) [.ok 8] [.error "timeout"])
          7 "timeout") :=
  ((keep_alive_iteration_spec scripted
    (sample (some 7) [.ok 8] [.error "timeout"]) 7 rfl).2
    "timeout" rfl).1

/-- With `router_client` set, an iteration of the liveness loop either returns
with `router_client` set or ends the process with status 1; it never
dereferences nil. -/
theorem iteration_total (D : Device σ) (s : State σ) (c : Client)
    (hc : s.router_client = some c) :
    (∃ s1 c1, keep_alive_iteration D s = .running s1 ∧ s1.router_client = some c1) ∨
      (∃ s1, keep_alive_iteration D s = .exited 1 s1) := by
  cases hp : (D.Run s.world c ["/system/identity/print"]).1 with
  | ok r => exact Or.inl ⟨_, c, iteration_probe_ok D s c r hc hp, hc⟩
  | error perr =>
    rw [iteration_probe_failed D s c perr hc hp]
    cases hd : (D.Dial (after_failed_probe D s c perr).world
        (full_address (after_failed_probe D s c perr))
        (after_failed_probe D s c perr).username (after_failed_probe D s c perr).password).1 with
    | error err => exact Or.inr ⟨_, init_error D _ err hd⟩
    | ok c1 => exact Or.inl ⟨_, c1, init_ok D _ c1 hd, rfl⟩

/-- C4, as the code has it: a connect that succeeds executes
`go keep_alive_connection()` whatever has been started before, so it adds one
liveness loop to those already started; in particular a liveness iteration
whose probe fails and whose reconnect succeeds returns to its own loop, which
goes on, and has started exactly one more loop, while an iteration whose
probe succeeds starts none. -/
theorem every_connect_starts_a_loop (D : Device σ) (s : State σ) :
    (∀ c, (D.Dial s.world (full_address s) s.username s.password).1 = .ok c →
      ∃ s1, init_routeros_connection D s = .running s1 ∧
        s1.out = s.out ++
          [.println ("Attempting to connect to RouterOS at address: " ++ full_address s),
            .dial (full_address s) s.username s.password, .go_keep_alive] ∧
        running_loops s1 = running_loops s + 1) ∧
    (∀ c perr c1, s.router_client = some c →
      (D.Run s.world c ["/system/identity/print"]).1 = .error perr →
      (D.Dial (D.Run s.world c ["/system/identity/print"]).2 (full_address s)
        s.username s.password).1 = .ok c1 →
      ∃ s1, keep_alive_iteration D s = .running s1 ∧
        s1.out = s.out ++
          [.sleep keep_alive_interval, .run c ["/system/identity/print"],
            .log ("Keep alive failed, attempting to reconnect: " ++ perr),
            .println ("Attempting to connect to RouterOS at address: " ++ full_address s),
            .dial (full_address s) s.username s.password, .go_keep_alive] ∧
        running_loops s1 = running_loops s + 1) ∧
    (∀ c r, s.router_client = some c →
      (D.Run s.world c ["/system/identity/print"]).1 = .ok r →
      ∃ s1, keep_alive_iteration D s = .running s1 ∧
        s1.out = s.out ++ [.sleep keep_alive_interval, .run c ["/system/identity/print"]] ∧
        running_loops s1 = running_loops s) := by
  refine ⟨?_, ?_, ?_⟩
  · intro c h
    exact ⟨_, init_ok D s c h, rfl, by simp [running_loops, Event.is_go]⟩
  · intro c perr c1 hc hp hd
    have h1 := iteration_probe_failed D s c perr hc hp
    have h2 := init_ok D (after_failed_probe D s c perr) c1 hd
    rw [h2] at h1
    refine ⟨_, h1, ?_, ?_⟩
    · simp [after_failed_probe, full_address]
    · simp [running_loops, after_failed_probe, Event.is_go]
  · intro c r hc hp
    exact ⟨_, iteration_probe_ok D s c r hc hp, rfl, by simp [running_loops, Event.is_go]⟩

/-- Witness for the amended C4: with one loop already started, a probe that
times out and a reconnect that succeeds start a second one. -/
theorem every_connect_starts_a_loop_witness :
    ∃ s1, keep_alive_iteration scripted
        { sample (some 7) [.ok 8] [.error "timeout"] with out := [.go_keep_alive] } =
        .running s1 ∧
      running_loops s1 =
        running_loops
          { sample (some 7) [.ok 8] [.error "timeout"] with out := [.go_keep_alive] } + 1 := by
  obtain ⟨s1, h1, _, h3⟩ := (every_connect_starts_a_loop scripted
    { sample (some 7) [.ok 8] [.error "timeout"] with out := [.go_keep_alive] }).2.1
    7 "timeout" 8 rfl rfl rfl
  exact ⟨s1, h1, h3⟩

/-- C4 fails as stated: the initial connect starts one liveness loop, and the
first iteration of that loop, its probe failing and its reconnect succeeding,
returns to the loop and has started a second one. -/
theorem second_loop_started :
    ∃ s1 s2,
      init_routeros_connection scripted (sample none [.ok 7, .ok 8] [.error "timeout"]) =
        .running s1 ∧
      running_loops s1 = 1 ∧
      keep_alive_iteration scripted s1 = .running s2 ∧
      running_loops s2 = 2 ∧
      ¬ running_loops s2 ≤ 1 :=
  ⟨_, _, rfl, by decide, rfl, by decide, by decide⟩

/-! ## Claims on the domain operations -/

theorem foldl_println (f : Sentence → String) (re : List Sentence) (s : State σ) :
    re.foldl (fun st r => emit st (.println (f r))) s =
      { s with out := s.out ++ re.map (fun r => .println (f r)) } := by
  induction re generalizing s with
  | nil => simp
  | cons r rs ih =>
    rw [List.foldl_cons, ih]
    simp [emit]

/-- C5: when the existence query succeeds, `update_network` with property
`"ssid"` sends, after the query, the one command `/interface/wireless/set`
with `?ssid=<ssid>` and `=ssid=<v>` and nothing else, and with property
`"password"` the one command `/interface/wireless/security-profiles/set` with
`?name=<ssid>` and `=wpa2-pre-shared-key=<v>` and nothing else. -/
theorem update_routing (D : Device σ) (s : State σ) (c : Client) (ssid v : String) (r0 : Reply)
    (hc : s.router_client = some c)
    (hq : (D.Run s.world c ["/interface/wireless/print", "?ssid=" ++ ssid]).1 = .ok r0) :
    (∃ last, (update_network D s ssid "ssid" v).state.out = s.out ++
        [.run c ["/interface/wireless/print", "?ssid=" ++ ssid],
          .run c ["/interface/wireless/set", "?ssid=" ++ ssid, "=ssid=" ++ v], last] ∧
        last.is_run = false) ∧
    (∃ last, (update_network D s ssid "password" v).state.out = s.out ++
        [.run c ["/interface/wireless/print", "?ssid=" ++ ssid],
          .run c ["/interface/wireless/security-profiles/set", "?name=" ++ ssid,
            "=wpa2-pre-shared-key=" ++ v], last] ∧
        last.is_run = false) := by
  have h1 := client_run D s c ["/interface/wireless/print", "?ssid=" ++ ssid] hc
  rw [hq] at h1
  refine ⟨?_, ?_⟩
  · have h2 := client_run D
      { s with
        world := (D.Run s.world c ["/interface/wireless/print", "?ssid=" ++ ssid]).2
        out := s.out ++ [.run c ["/interface/wireless/print", "?ssid=" ++ ssid]] }
      c ["/interface/wireless/set", "?ssid=" ++ ssid, "=ssid=" ++ v] hc
    simp only [update_network, h1, h2, if_true, Option.map]
    cases (D.Run (D.Run s.world c ["/interface/wireless/print", "?ssid=" ++ ssid]).2 c
      ["/interface/wireless/set", "?ssid=" ++ ssid, "=ssid=" ++ v]).1 <;>
      simp [err_of, Outcome.state, emit, Event.is_run]
  · have h2 := client_run D
      { s with
        world := (D.Run s.world c ["/interface/wireless/print", "?ssid=" ++ ssid]).2
        out := s.out ++ [.run c ["/interface/wireless/print", "?ssid=" ++ ssid]] }
      c ["/interface/wireless/security-profiles/set", "?name=" ++ ssid,
        "=wpa2-pre-shared-key=" ++ v] hc
    have hne : ¬ ("password" = "ssid") := by decide
    simp only [update_network, h1, h2, hne, if_true, if_false, Option.map]
    cases (D.Run (D.Run s.world c ["/interface/wireless/print", "?ssid=" ++ ssid]).2 c
      ["/interface/wireless/security-profiles/set", "?name=" ++ ssid,
        "=wpa2-pre-shared-key=" ++ v]).1 <;>
      simp [err_of, Outcome.state, emit, Event.is_run]

/-- Witness for C5: the update routing of the specification's example. -/
theorem update_routing_witness :
    (∃ last, (update_network scripted (sample (some 7) [] [.ok ⟨[]⟩, .ok ⟨[]⟩])
        "guest" "ssid" "guest2").state.out =
        (sample (some 7) [] [.ok ⟨[]⟩, .ok ⟨[]⟩]).out ++
        [.run 7 ["/interface/wireless/print", "?ssid=" ++ "guest"],
          .run 7 ["/interface/wireless/set", "?ssid=" ++ "guest", "=ssid=" ++ "guest2"], last] ∧
        last.is_run = false) :=
  (update_routing scripted (sample (some 7) [] [.ok ⟨[]⟩, .ok ⟨[]⟩]) 7 "guest" "guest2" ⟨[]⟩
    rfl rfl).1

/-- C10: with a property other than `"ssid"` and `"password"`, when the
existence query succeeds, `update_network` sends nothing after the query and
reports `Network updated successfully`. -/
theorem update_unknown_property (D : Device σ) (s : State σ) (c : Client)
    (ssid property v : String) (r0 : Reply)
    (hc : s.router_client = some c)
    (hq : (D.Run s.world c ["/interface/wireless/print", "?ssid=" ++ ssid]).1 = .ok r0)
    (h1 : property ≠ "ssid") (h2 : property ≠ "password") :
    ∃ s1, update_network D s ssid property v = .running s1 ∧
      s1.out = s.out ++ [.run c ["/interface/wireless/print", "?ssid=" ++ ssid],
        .green ("Network updated successfully: " ++ ssid)] ∧
      commands s1.out = commands s.out ++ [["/interface/wireless/print", "?ssid=" ++ ssid]] := by
  have h := client_run D s c ["/interface/wireless/print", "?ssid=" ++ ssid] hc
  rw [hq] at h
  simp [update_network, h, h1, h2, emit, commands]

/-- Witness for C10: the property `"channel"`. -/
theorem update_unknown_property_witness :
    ∃ s1, update_network scripted (sample (some 7) [] [.ok ⟨[]⟩]) "guest" "channel" "11" =
        .running s1 ∧
      s1.out = (sample (some 7) [] [.ok ⟨[]⟩]).out ++
        [.run 7 ["/interface/wireless/print", "?ssid=" ++ "guest"],
          .green ("Network updated successfully: " ++ "guest")] ∧
      commands s1.out = commands (sample (some 7) [] [.ok ⟨[]⟩]).out ++
        [["/interface/wireless/print", "?ssid=" ++ "guest"]] :=
  update_unknown_property scripted (sample (some 7) [] [.ok ⟨[]⟩]) 7 "guest" "channel" "11" ⟨[]⟩
    rfl rfl (by decide) (by decide)

theorem send_in_order_sent (D : Device σ) (c : Client) (qs : List (List String)) (w : σ) :
    (send_in_order D c qs w).1 <+: qs := by
  induction qs generalizing w with
  | nil => simp [send_in_order]
  | cons q qs ih =>
    unfold send_in_order
    cases (D.Run w c q).1 with
    | error e => simp
    | ok r => simpa using ih _

/-- C6: `create_network` returns, and the commands it has sent are those of
sending the fixed sequence (existence query, security profile, wireless
interface) in order up to and including the first that fails: they are an
initial segment of that sequence, none is sent twice, and
`Network created successfully` is reported exactly when all three
succeeded. -/
theorem create_network_sequence (D : Device σ) (s : State σ) (c : Client)
    (ssid password : String) (hc : s.router_client = some c) :
    ∃ s1 added, create_network D s ssid password = .running s1 ∧
      s1.out = s.out ++ added ∧
      commands added = (send_in_order D c (create_sequence ssid password) s.world).1 ∧
      commands added <+: create_sequence ssid password ∧
      (commands added).Nodup ∧
      (.green ("Network created successfully: " ++ ssid) ∈ added ↔
        (send_in_order D c (create_sequence ssid password) s.world).2.1 = true) ∧
      ((∃ msg, .red msg ∈ added) ↔
        (send_in_order D c (create_sequence ssid password) s.world).2.1 = false) := by
  have h1 := client_run D s c ["/interface/wireless/print", "?ssid=" ++ ssid] hc
  have h2 := client_run D
    { s with
      world := (D.Run s.world c ["/interface/wireless/print", "?ssid=" ++ ssid]).2
      out := s.out ++ [.run c ["/interface/wireless/print", "?ssid=" ++ ssid]] } c
    ["/interface/wireless/security-profiles/add", "=name=" ++ ssid,
      "=wpa2-pre-shared-key=" ++ password] hc
  have h3 := client_run D
    { s with
      world := (D.Run (D.Run s.world c ["/interface/wireless/print", "?ssid=" ++ ssid]).2 c
        ["/interface/wireless/security-profiles/add", "=name=" ++ ssid,
          "=wpa2-pre-shared-key=" ++ password]).2
      out := s.out ++ [.run c ["/interface/wireless/print", "?ssid=" ++ ssid]] ++
        [.run c ["/interface/wireless/security-profiles/add", "=name=" ++ ssid,
          "=wpa2-pre-shared-key=" ++ password]] } c
    ["/interface/wireless/add", "=name=" ++ ssid, "=ssid=" ++ ssid,
      "=security-profile=" ++ ssid, "=master-interface=wlan1"] hc
  simp only [] at h2 h3
  cases r1 : (D.Run s.world c ["/interface/wireless/print", "?ssid=" ++ ssid]).1 with
  | error e1 =>
    refine ⟨?_, [.run c ["/interface/wireless/print", "?ssid=" ++ ssid],
      .red ("Error checking for existing network: " ++ e1)], ?_, ?_⟩
    rotate_left
    · simp only [create_network, h1, r1]
      exact rfl
    · simp [emit, commands, send_in_order, create_sequence, r1]
  | ok a1 =>
    cases r2 : (D.Run (D.Run s.world c ["/interface/wireless/print", "?ssid=" ++ ssid]).2 c
        ["/interface/wireless/security-profiles/add", "=name=" ++ ssid,
          "=wpa2-pre-shared-key=" ++ password]).1 with
    | error e2 =>
      refine ⟨?_, [.run c ["/interface/wireless/print", "?ssid=" ++ ssid],
        .run c ["/interface/wireless/security-profiles/add", "=name=" ++ ssid,
          "=wpa2-pre-shared-key=" ++ password],
        .red ("Failed to create security profile: " ++ e2)], ?_, ?_⟩
      rotate_left
      · simp only [create_network, h1, r1, emit, h2, r2]
        exact rfl
      · simp [emit, commands, send_in_order, create_sequence, r1, r2]
    | ok a2 =>
      cases r3 : (D.Run (D.Run (D.Run s.world c
          ["/interface/wireless/print", "?ssid=" ++ ssid]).2 c
          ["/interface/wireless/security-profiles/add", "=name=" ++ ssid,
            "=wpa2-pre-shared-key=" ++ password]).2 c
          ["/interface/wireless/add", "=name=" ++ ssid, "=ssid=" ++ ssid,
            "=security-profile=" ++ ssid, "=master-interface=wlan1"]).1 with
      | error e3 =>
        refine ⟨?_, [.run c ["/interface/wireless/print", "?ssid=" ++ ssid],
          .run c ["/interface/wireless/security-profiles/add", "=name=" ++ ssid,
            "=wpa2-pre-shared-key=" ++ password],
          .run c ["/interface/wireless/add", "=name=" ++ ssid, "=ssid=" ++ ssid,
            "=security-profile=" ++ ssid, "=master-interface=wlan1"],
          .red ("Failed to create network: " ++ e3)], ?_, ?_⟩
        rotate_left
        · simp only [create_network, h1, r1, emit, h2, r2, h3, r3]
          exact rfl
        · simp [emit, commands, send_in_order, create_sequence, r1, r2, r3]
      | ok a3 =>
        refine ⟨?_, [.run c ["/interface/wireless/print", "?ssid=" ++ ssid],
          .run c ["/interface/wireless/security-profiles/add", "=name=" ++ ssid,
            "=wpa2-pre-shared-key=" ++ password],
          .run c ["/interface/wireless/add", "=name=" ++ ssid, "=ssid=" ++ ssid,
            "=security-profile=" ++ ssid, "=master-interface=wlan1"],
          .green ("Network created successfully: " ++ ssid)], ?_, ?_⟩
        rotate_left
        · simp only [create_network, h1, r1, emit, h2, r2, h3, r3]
          exact rfl
        · simp [emit, commands, send_in_order, create_sequence, r1, r2, r3]

/-- Witness for C6: the security profile already exists, so the second command
fails and the third is not sent. -/
theorem create_network_sequence_witness :
    ∃ s1 added, create_network scripted
        (sample (some 7) [] [.ok ⟨[]⟩, .error "already exists"]) "guest" "secret123" =
        .running s1 ∧
      s1.out = (sample (some 7) [] [.ok ⟨[]⟩, .error "already exists"]).out ++ added ∧
      commands added = (send_in_order scripted 7 (create_sequence "guest" "secret123")
        (sample (some 7) [] [.ok ⟨[]⟩, .error "already exists"]).world).1 ∧
      commands added <+: create_sequence "guest" "secret123" ∧
      (commands added).Nodup ∧
      (.green ("Network created successfully: " ++ "guest") ∈ added ↔
        (send_in_order scripted 7 (create_sequence "guest" "secret123")
          (sample (some 7) [] [.ok ⟨[]⟩, .error "already exists"]).world).2.1 = true) ∧
      ((∃ msg, .red msg ∈ added) ↔
        (send_in_order scripted 7 (create_sequence "guest" "secret123")
          (sample (some 7) [] [.ok ⟨[]⟩, .error "already exists"]).world).2.1 = false) :=
  create_network_sequence scripted (sample (some 7) [] [.ok ⟨[]⟩, .error "already exists"]) 7
    "guest" "secret123" rfl

/-- C9: `list_networks` sends the one command `/interface/wireless/print`;
on a successful reply it then prints one line per record, in reply order, the
record's `ssid` value or the empty line when the record has none, and nothing
else; on a failed call it prints no line, only the error report; so two calls
that get the same reply, on whatever device and in whatever state, print the
same lines. -/
theorem list_networks_prints (D : Device σ) (s : State σ) (c : Client)
    (hc : s.router_client = some c) :
    (∀ resp, (D.Run s.world c ["/interface/wireless/print"]).1 = .ok resp →
      ∃ s1, list_networks D s = .running s1 ∧
        s1.out = s.out ++ .run c ["/interface/wireless/print"] ::
          resp.Re.map (fun re => .println ((re.lookup "ssid").getD "")) ∧
        printed (s1.out.drop s.out.length) = resp.Re.map (fun re => (re.lookup "ssid").getD "")) ∧
    (∀ err, (D.Run s.world c ["/interface/wireless/print"]).1 = .error err →
      ∃ s1, list_networks D s = .running s1 ∧
        s1.out = s.out ++ [.run c ["/interface/wireless/print"],
          .red ("Failed to list networks: " ++ err)] ∧
        printed (s1.out.drop s.out.length) = []) ∧
    (∀ (τ : Type) (D2 : Device τ) (s2 : State τ) (c2 : Client) (resp : Reply),
      s2.router_client = some c2 →
      (D.Run s.world c ["/interface/wireless/print"]).1 = .ok resp →
      (D2.Run s2.world c2 ["/interface/wireless/print"]).1 = .ok resp →
      printed ((list_networks D2 s2).state.out.drop s2.out.length) =
        printed ((list_networks D s).state.out.drop s.out.length)) := by
  have key : ∀ (τ : Type) (D2 : Device τ) (s2 : State τ) (c2 : Client) (resp : Reply),
      s2.router_client = some c2 →
      (D2.Run s2.world c2 ["/interface/wireless/print"]).1 = .ok resp →
      list_networks D2 s2 = .running
        { s2 with
          world := (D2.Run s2.world c2 ["/interface/wireless/print"]).2
          out := s2.out ++ .run c2 ["/interface/wireless/print"] ::
            resp.Re.map (fun re => .println ((re.lookup "ssid").getD "")) } := by
    intro τ D2 s2 c2 resp h2 hr
    have h := client_run D2 s2 c2 ["/interface/wireless/print"] h2
    rw [hr] at h
    simp only [list_networks, h, foldl_println, map_index]
    simp
  have pr : ∀ (re : List Sentence),
      printed (List.map (fun re => Event.println ((List.lookup "ssid" re).getD "")) re) =
        re.map (fun re => (re.lookup "ssid").getD "") := by
    intro re
    induction re with
    | nil => rfl
    | cons r rs ih => simp [printed, ih]
  refine ⟨?_, ?_, ?_⟩
  · intro resp hr
    refine ⟨_, key σ D s c resp hc hr, rfl, ?_⟩
    simp [printed, pr]
  · intro err hr
    have h := client_run D s c ["/interface/wireless/print"] hc
    rw [hr] at h
    refine ⟨?_, ?_, ?_, ?_⟩
    rotate_left
    · simp only [list_networks, h]
      exact rfl
    · simp [emit]
    · simp [emit, printed]
  · intro τ D2 s2 c2 resp h2 hr hr2
    rw [key σ D s c resp hc hr, key τ D2 s2 c2 resp h2 hr2]
    simp [Outcome.state, printed, pr]

/-- Witness for C9: three records, the second without an `ssid` key. -/
theorem list_networks_prints_witness :
    ∃ s1, list_networks scripted
        (sample (some 7) [] [.ok ⟨[[("ssid", "home")], [("name", "wlan2")], [("ssid", "guest")]]⟩])
        = .running s1 ∧
      printed s1.out = ["home", "", "guest"] := by
  obtain ⟨s1, h1, _, h3⟩ := (list_networks_prints scripted
    (sample (some 7) [] [.ok ⟨[[("ssid", "home")], [("name", "wlan2")], [("ssid", "guest")]]⟩])
    7 rfl).1 ⟨[[("ssid", "home")], [("name", "wlan2")], [("ssid", "guest")]]⟩ rfl
  exact ⟨s1, h1, by simpa [sample] using h3⟩

/-! ## Decimal rendering and parsing -/

theorem digit_val_digitChar (m : Nat) (h : m < 10) : digit_val (Nat.digitChar m) = some m := by
  interval_cases m <;> rfl

theorem digit_val_not_sign (c : Char) (d : Nat) (h : digit_val c = some d) :
    ¬ (c = '-' ∨ c = '+') := by
  rintro (rfl | rfl) <;> simp [digit_val] at h

theorem parse_toDigitsCore (fuel : Nat) : ∀ (n : Nat) (ds : List Char), n < fuel →
    ∃ k, ∀ a, parse_digits (Nat.toDigitsCore 10 fuel n ds) a =
      parse_digits ds (a * 10 ^ k + n) := by
  induction fuel with
  | zero => intro n ds h; omega
  | succ fuel ih =>
    intro n ds h
    unfold Nat.toDigitsCore
    by_cases h0 : n / 10 = 0
    · refine ⟨1, fun a => ?_⟩
      have hn : n % 10 = n := Nat.mod_eq_of_lt (by omega)
      simp only [h0, if_true, parse_digits, digit_val_digitChar (n % 10) (Nat.mod_lt n (by omega))]
      rw [hn, pow_one]
    · obtain ⟨k, hk⟩ := ih (n / 10) (Nat.digitChar (n % 10) :: ds) (by omega)
      refine ⟨k + 1, fun a => ?_⟩
      simp only [h0, if_false, hk, parse_digits,
        digit_val_digitChar (n % 10) (Nat.mod_lt n (by omega))]
      congr 1
      rw [pow_succ]
      have := Nat.div_add_mod n 10
      nlinarith [Nat.div_add_mod n 10]

theorem toDigitsCore_ne_nil (fuel : Nat) : ∀ (n : Nat) (ds : List Char), ds ≠ [] →
    Nat.toDigitsCore 10 fuel n ds ≠ [] := by
  induction fuel with
  | zero => intro n ds h; simpa [Nat.toDigitsCore] using h
  | succ fuel ih =>
    intro n ds _
    unfold Nat.toDigitsCore
    by_cases h0 : n / 10 = 0
    · simp [h0]
    · simp only [h0, if_false]
      exact ih _ _ (by simp)

theorem parse_repr (n : Nat) : parse_digits (Nat.repr n).data 0 = some n := by
  obtain ⟨k, hk⟩ := parse_toDigitsCore (n + 1) n [] (by omega)
  simp [Nat.repr, Nat.toDigits, List.asString, hk, parse_digits]

theorem repr_ne_nil (n : Nat) : (Nat.repr n).data ≠ [] := by
  simp only [Nat.repr, Nat.toDigits, List.asString]
  unfold Nat.toDigitsCore
  by_cases h0 : n / 10 = 0
  · simp [h0]
  · simp only [h0, if_false]
    exact toDigitsCore_ne_nil _ _ _ (by simp)

/-- Parsing what `%d` prints gives the number back, for every 64-bit `int`. -/
theorem Atoi_fmt_d (i : Int) (hlo : -((2 : Int) ^ 63) ≤ i) (hhi : i < (2 : Int) ^ 63) :
    Atoi (fmt_d i) = some i := by
  cases i with
  | ofNat n =>
    have hp := parse_repr n
    have hne := repr_ne_nil n
    simp only [fmt_d, Atoi]
    cases hd : (Nat.repr n).data with
    | nil => exact absurd hd hne
    | cons c cs =>
      rw [hd] at hp
      have hc : ∃ d, digit_val c = some d := by
        cases hv : digit_val c with
        | none => simp [parse_digits, hv] at hp
        | some d => exact ⟨d, rfl⟩
      obtain ⟨d, hdv⟩ := hc
      have hs := digit_val_not_sign c d hdv
      have hm : ¬ c = '-' := fun h => hs (Or.inl h)
      have hpl : ¬ c = '+' := fun h => hs (Or.inr h)
      have h2 : (n : Int) < (2 : Int) ^ 63 := hhi
      have hn : n < 9223372036854775808 := by norm_num at h2; omega
      simp [hm, hpl, hp, hn]
      omega
  | negSucc n =>
    have hp := parse_repr (n + 1)
    have hne := repr_ne_nil (n + 1)
    simp only [fmt_d, Atoi]
    have hdata : ("-" ++ Nat.repr (n + 1)).data = '-' :: (Nat.repr (n + 1)).data := by
      simp [String.data_append]
    rw [hdata]
    cases hd : (Nat.repr (n + 1)).data with
    | nil => exact absurd hd hne
    | cons c cs =>
      rw [hd] at hp
      simp only [true_or, if_true, hp]
      have h3 : -((2 : Int) ^ 63) ≤ -((n + 1 : Nat) : Int) := by
        have : Int.negSucc n = -((n + 1 : Nat) : Int) := rfl
        rw [← this]; exact hlo
      have h2 : -((n + 1 : Nat) : Int) < (2 : Int) ^ 63 := by
        have : Int.negSucc n = -((n + 1 : Nat) : Int) := rfl
        rw [← this]; exact hhi
      simp only [h2, h3, and_self, if_true]
      rfl

/-! ## Claim on the environment -/

/-- C7: `get_env_with_default` gives the variable's value whenever it is set,
the empty string included, and the default otherwise; before flag parsing the
address, username and password are the variables `MIKROTIK_ADDRESS`,
`MIKROTIK_USERNAME`, `MIKROTIK_PASSWORD` with defaults `192.168.88.1`, `admin`
and the empty string, and the port is
`get_port_from_env_or_default "MIKROTIK_PORT" 8728`, which is the integer
`strconv.Atoi` reads from the variable when it is set and parses, and `8728`
when it is unset or does not parse; the decimal rendering of every 64-bit
integer parses to that integer. -/
theorem env_resolution (env : Env) :
    (∀ key d v, env key = some v → get_env_with_default env key d = v) ∧
    (∀ key d, env key = none → get_env_with_default env key d = d) ∧
    (∀ w : σ,
      (startup w env).address = (env "MIKROTIK_ADDRESS").getD "192.168.88.1" ∧
      (startup w env).username = (env "MIKROTIK_USERNAME").getD "admin" ∧
      (startup w env).password = (env "MIKROTIK_PASSWORD").getD "" ∧
      (startup w env).port = get_port_from_env_or_default env "MIKROTIK_PORT" 8728) ∧
    (∀ v i, env "MIKROTIK_PORT" = some v → Atoi v = some i →
      get_port_from_env_or_default env "MIKROTIK_PORT" 8728 = i) ∧
    (∀ v, env "MIKROTIK_PORT" = some v → Atoi v = none →
      get_port_from_env_or_default env "MIKROTIK_PORT" 8728 = 8728) ∧
    (env "MIKROTIK_PORT" = none →
      get_port_from_env_or_default env "MIKROTIK_PORT" 8728 = 8728) ∧
    (∀ i : Int, -((2 : Int) ^ 63) ≤ i → i < (2 : Int) ^ 63 →
      env "MIKROTIK_PORT" = some (fmt_d i) →
      get_port_from_env_or_default env "MIKROTIK_PORT" 8728 = i) := by
  refine ⟨?_, ?_, ?_, ?_, ?_, ?_, ?_⟩
  · intro key d v h
    simp [get_env_with_default, h]
  · intro key d h
    simp [get_env_with_default, h]
  · intro w
    refine ⟨?_, ?_, ?_, rfl⟩ <;>
      simp only [startup, emit, resolve_env, get_env_with_default] <;>
      split <;> simp_all
  · intro v i h hv
    simp [get_port_from_env_or_default, h, hv]
  · intro v h hv
    simp [get_port_from_env_or_default, h, hv]
  · intro h
    simp [get_port_from_env_or_default, h]
  · intro i hlo hhi h
    simp [get_port_from_env_or_default, h, Atoi_fmt_d i hlo hhi]

/-- Witness for C7: the password is set to the empty string and the port to
`8729`. -/
theorem env_resolution_witness :
    get_env_with_default sample_env "MIKROTIK_PASSWORD" "secret" = "" ∧
      get_env_with_default sample_env "MIKROTIK_ADDRESS" "192.168.88.1" = "192.168.88.1" ∧
      get_port_from_env_or_default sample_env "MIKROTIK_PORT" 8728 = 8729 :=
  ⟨(@env_resolution Unit sample_env).1 "MIKROTIK_PASSWORD" "secret" "" rfl,
    (@env_resolution Unit sample_env).2.1 "MIKROTIK_ADDRESS" "192.168.88.1" rfl,
    (@env_resolution Unit sample_env).2.2.2.1 "8729" 8729 rfl rfl⟩

/-! ## Goroutine interleavings -/

theorem countP_set_get {α : Type} (p : α → Bool) (l : List α) (i : Nat) (a b : α)
    (h : l[i]? = some a) :
    (l.set i b).countP p + (p a).toNat = l.countP p + (p b).toNat := by
  induction l generalizing i with
  | nil => simp at h
  | cons x xs ih =>
    cases i with
    | zero =>
      simp at h
      subst h
      simp [List.countP_cons]
      cases p x <;> cases p b <;> simp
    | succ i =>
      simp at h
      have := ih i h
      simp [List.countP_cons]
      omega

theorem main_step_counts (D : Device σ) (g d l : Nat) (x : Sys σ)
    (hg : x.shared.out.countP Event.is_go = g + x.loops.length)
    (hd : x.shared.out.countP Event.is_dial = d + x.loops.length + x.after_dial)
    (hl : x.shared.out.countP Event.is_dial + x.before_dial + l =
      d + 1 + x.shared.out.countP Event.is_log) :
    (main_step D x x.main).shared.out.countP Event.is_go =
        g + (main_step D x x.main).loops.length ∧
      (main_step D x x.main).shared.out.countP Event.is_dial =
        d + (main_step D x x.main).loops.length + (main_step D x x.main).after_dial ∧
      (main_step D x x.main).shared.out.countP Event.is_dial +
          (main_step D x x.main).before_dial + l =
        d + 1 + (main_step D x x.main).shared.out.countP Event.is_log := by
  obtain ⟨sh, cmd, pc, loops, halted⟩ := x
  simp only [Sys.after_dial, Sys.before_dial] at hg hd hl ⊢
  cases pc with
  | connect p =>
    cases p with
    | assign r =>
      cases r <;>
        simp_all [main_step, init_step, emit, List.countP_append, Event.is_go, Event.is_dial,
          Event.is_log, MainPc.dialed, MainPc.dialing, InitPc.dialed]
    | _ =>
      simp_all [main_step, init_step, emit, List.countP_append, Event.is_go, Event.is_dial,
        Event.is_log, MainPc.dialed, MainPc.dialing, InitPc.dialed, LoopPc.dialed,
        LoopPc.dialing] <;> omega
  | hook p =>
    cases p <;>
      simp_all [main_step, emit, List.countP_append, Event.is_go, Event.is_dial,
        Event.is_log, MainPc.dialed, MainPc.dialing]
  | call c sentence k =>
    cases c <;>
      simp_all [main_step, emit, List.countP_append, Event.is_go, Event.is_dial,
        Event.is_log, MainPc.dialed, MainPc.dialing]

theorem loop_step_counts (D : Device σ) (g d l : Nat) (x : Sys σ) (i : Nat) (pc : LoopPc)
    (hpc : x.loops[i]? = some pc)
    (hg : x.shared.out.countP Event.is_go = g + x.loops.length)
    (hd : x.shared.out.countP Event.is_dial = d + x.loops.length + x.after_dial)
    (hl : x.shared.out.countP Event.is_dial + x.before_dial + l =
      d + 1 + x.shared.out.countP Event.is_log) :
    (loop_step D x i pc).shared.out.countP Event.is_go =
        g + (loop_step D x i pc).loops.length ∧
      (loop_step D x i pc).shared.out.countP Event.is_dial =
        d + (loop_step D x i pc).loops.length + (loop_step D x i pc).after_dial ∧
      (loop_step D x i pc).shared.out.countP Event.is_dial +
          (loop_step D x i pc).before_dial + l =
        d + 1 + (loop_step D x i pc).shared.out.countP Event.is_log := by
  obtain ⟨sh, cmd, mpc, loops, halted⟩ := x
  simp only [Sys.after_dial, Sys.before_dial] at hg hd hl ⊢
  simp only at hpc
  cases pc with
  | sleep =>
    have a := countP_set_get LoopPc.dialed loops i _ (.load) hpc
    have b := countP_set_get LoopPc.dialing loops i _ (.load) hpc
    simp [LoopPc.dialed, LoopPc.dialing, InitPc.dialed] at a b
    simp [loop_step, init_step, emit, List.countP_append, Event.is_go, Event.is_dial,
      Event.is_log, LoopPc.dialed, LoopPc.dialing]
    omega
  | load =>
    have a := countP_set_get LoopPc.dialed loops i _ (.call sh.router_client) hpc
    have b := countP_set_get LoopPc.dialing loops i _ (.call sh.router_client) hpc
    simp [LoopPc.dialed, LoopPc.dialing, InitPc.dialed] at a b
    simp [loop_step, init_step, emit, List.countP_append, Event.is_go, Event.is_dial,
      Event.is_log, LoopPc.dialed, LoopPc.dialing]
    omega
  | call c =>
    cases c with
    | none => simpa [loop_step] using ⟨hg, hd, hl⟩
    | some c =>
      cases hr : (D.Run sh.world c ["/system/identity/print"]).1 with
      | error err =>
        have a := countP_set_get LoopPc.dialed loops i _ (.log err) hpc
        have b := countP_set_get LoopPc.dialing loops i _ (.log err) hpc
        simp [LoopPc.dialed, LoopPc.dialing, InitPc.dialed] at a b
        simp [loop_step, init_step, emit, List.countP_append, Event.is_go, Event.is_dial,
          Event.is_log, LoopPc.dialed, LoopPc.dialing, hr]
        omega
      | ok r =>
        have a := countP_set_get LoopPc.dialed loops i _ (.sleep) hpc
        have b := countP_set_get LoopPc.dialing loops i _ (.sleep) hpc
        simp [LoopPc.dialed, LoopPc.dialing, InitPc.dialed] at a b
        simp [loop_step, init_step, emit, List.countP_append, Event.is_go, Event.is_dial,
          Event.is_log, LoopPc.dialed, LoopPc.dialing, hr]
        omega
  | log err =>
    have a := countP_set_get LoopPc.dialed loops i _ (.connect .announce) hpc
    have b := countP_set_get LoopPc.dialing loops i _ (.connect .announce) hpc
    simp [LoopPc.dialed, LoopPc.dialing, InitPc.dialed] at a b
    simp [loop_step, init_step, emit, List.countP_append, Event.is_go, Event.is_dial,
      Event.is_log, LoopPc.dialed, LoopPc.dialing]
    omega
  | connect p =>
    cases p with
    | announce =>
      have a := countP_set_get LoopPc.dialed loops i _ (.connect (.dial (sh.address ++ ":" ++ fmt_d sh.port))) hpc
      have b := countP_set_get LoopPc.dialing loops i _ (.connect (.dial (sh.address ++ ":" ++ fmt_d sh.port))) hpc
      simp [LoopPc.dialed, LoopPc.dialing, InitPc.dialed] at a b
      simp [loop_step, init_step, emit, List.countP_append, Event.is_go, Event.is_dial,
        Event.is_log, LoopPc.dialed, LoopPc.dialing]
      omega
    | dial fa =>
      have a := countP_set_get LoopPc.dialed loops i _ (.connect (.assign (D.Dial sh.world fa sh.username sh.password).1)) hpc
      have b := countP_set_get LoopPc.dialing loops i _ (.connect (.assign (D.Dial sh.world fa sh.username sh.password).1)) hpc
      simp [LoopPc.dialed, LoopPc.dialing, InitPc.dialed] at a b
      simp [loop_step, init_step, emit, List.countP_append, Event.is_go, Event.is_dial,
        Event.is_log, LoopPc.dialed, LoopPc.dialing]
      omega
    | assign r =>
      cases r with
      | error err =>
        have a := countP_set_get LoopPc.dialed loops i _ (.connect (.report err)) hpc
        have b := countP_set_get LoopPc.dialing loops i _ (.connect (.report err)) hpc
        simp [LoopPc.dialed, LoopPc.dialing, InitPc.dialed] at a b
        simp [loop_step, init_step, emit, List.countP_append, Event.is_go, Event.is_dial,
          Event.is_log, LoopPc.dialed, LoopPc.dialing]
        omega
      | ok c =>
        have a := countP_set_get LoopPc.dialed loops i _ (.connect .spawn) hpc
        have b := countP_set_get LoopPc.dialing loops i _ (.connect .spawn) hpc
        simp [LoopPc.dialed, LoopPc.dialing, InitPc.dialed] at a b
        simp [loop_step, init_step, emit, List.countP_append, Event.is_go, Event.is_dial,
          Event.is_log, LoopPc.dialed, LoopPc.dialing]
        omega
    | report err =>
      have a := countP_set_get LoopPc.dialed loops i _ (.connect .os_exit) hpc
      have b := countP_set_get LoopPc.dialing loops i _ (.connect .os_exit) hpc
      simp [LoopPc.dialed, LoopPc.dialing, InitPc.dialed] at a b
      simp [loop_step, init_step, emit, List.countP_append, Event.is_go, Event.is_dial,
        Event.is_log, LoopPc.dialed, LoopPc.dialing]
      omega
    | os_exit => simpa [loop_step, init_step] using ⟨hg, hd, hl⟩
    | spawn =>
      have a := countP_set_get LoopPc.dialed loops i _ (.sleep) hpc
      have b := countP_set_get LoopPc.dialing loops i _ (.sleep) hpc
      simp [LoopPc.dialed, LoopPc.dialing, InitPc.dialed] at a b
      simp [loop_step, init_step, emit, List.countP_append, Event.is_go, Event.is_dial,
        Event.is_log, LoopPc.dialed, LoopPc.dialing]
      omega

theorem step_counts (D : Device σ) (g d l : Nat) (t : Tid) (x y : Sys σ)
    (h : step D t x = some y)
    (hg : x.shared.out.countP Event.is_go = g + x.loops.length)
    (hd : x.shared.out.countP Event.is_dial = d + x.loops.length + x.after_dial)
    (hl : x.shared.out.countP Event.is_dial + x.before_dial + l =
      d + 1 + x.shared.out.countP Event.is_log) :
    y.shared.out.countP Event.is_go = g + y.loops.length ∧
      y.shared.out.countP Event.is_dial = d + y.loops.length + y.after_dial ∧
      y.shared.out.countP Event.is_dial + y.before_dial + l =
        d + 1 + y.shared.out.countP Event.is_log := by
  unfold step at h
  cases hh : x.halted with
  | some w => simp [hh] at h
  | none =>
    simp only [hh] at h
    cases t with
    | main =>
      simp only [Option.some.injEq] at h
      subst h
      exact main_step_counts D g d l x hg hd hl
    | loop i =>
      simp only at h
      cases hpc : x.loops[i]? with
      | none => simp [hpc] at h
      | some pc =>
        simp only [hpc, Option.some.injEq] at h
        subst h
        exact loop_step_counts D g d l x i pc hpc hg hd hl

theorem run_counts_from (D : Device σ) (g d l : Nat) (sched : List Tid) :
    ∀ (x y : Sys σ), run D sched x = some y →
      x.shared.out.countP Event.is_go = g + x.loops.length →
      x.shared.out.countP Event.is_dial = d + x.loops.length + x.after_dial →
      x.shared.out.countP Event.is_dial + x.before_dial + l =
        d + 1 + x.shared.out.countP Event.is_log →
      y.shared.out.countP Event.is_go = g + y.loops.length ∧
        y.shared.out.countP Event.is_dial = d + y.loops.length + y.after_dial ∧
        y.shared.out.countP Event.is_dial + y.before_dial + l =
          d + 1 + y.shared.out.countP Event.is_log := by
  induction sched with
  | nil =>
    intro x y h hg hd hl
    simp only [run, Option.some.injEq] at h
    subst h
    exact ⟨hg, hd, hl⟩
  | cons t ts ih =>
    intro x y h hg hd hl
    simp only [run] at h
    cases hs : step D t x with
    | none => simp [hs] at h
    | some z =>
      simp only [hs] at h
      obtain ⟨hg1, hd1, hl1⟩ := step_counts D g d l t x z hs hg hd hl
      exact ih z y h hg1 hd1 hl1

/-- Under every schedule of the main goroutine and the liveness goroutines,
from `PersistentPreRun` on: the liveness goroutines are as many as the `go`
statements executed since; the dials made since are as many as the liveness
goroutines plus the goroutines that have dialled and not yet reached their
`go` statement or exit; and the dials made plus the goroutines about to dial
are one more than the failed probes logged.  So whenever no goroutine is
inside `init_routeros_connection`, the liveness goroutines are as many as
the dials made, one more than the failed probes logged. -/
theorem run_counts (D : Device σ) (s : State σ) (cmd : Command) (sched : List Tid)
    (x : Sys σ) (h : run D sched (boot s cmd) = some x) :
    running_loops x.shared = running_loops s + x.loops.length ∧
      x.shared.out.countP Event.is_dial =
        s.out.countP Event.is_dial + x.loops.length + x.after_dial ∧
      x.shared.out.countP Event.is_dial + x.before_dial + s.out.countP Event.is_log =
        s.out.countP Event.is_dial + 1 + x.shared.out.countP Event.is_log ∧
      (x.after_dial = 0 → x.before_dial = 0 →
        x.shared.out.countP Event.is_dial = s.out.countP Event.is_dial + x.loops.length ∧
        x.loops.length + s.out.countP Event.is_log =
          1 + x.shared.out.countP Event.is_log) := by
  obtain ⟨hg, hd, hl⟩ := run_counts_from D (s.out.countP Event.is_go)
    (s.out.countP Event.is_dial) (s.out.countP Event.is_log) sched (boot s cmd) x h
    (by simp [boot]) (by simp [boot, Sys.after_dial, MainPc.dialed, InitPc.dialed])
    (by simp [boot, Sys.before_dial, MainPc.dialing, InitPc.dialed])
  refine ⟨hg, hd, hl, ?_⟩
  intro ha hb
  omega

/-- Three liveness goroutines can run at once: the first loop reconnects and
starts a second; both then probe the new session before either reconnects,
as goroutines that slept side by side do; and the first reconnects again. -/
theorem three_loops_reachable :
    ∃ x, run scripted
        ([.main, .main, .main, .main] ++ List.replicate 8 (.loop 0) ++
          List.replicate 3 (.loop 0) ++ List.replicate 3 (.loop 1) ++
          List.replicate 5 (.loop 0))
        (boot (sample none [.ok 7, .ok 8, .ok 9] [.error "t1", .error "t2", .error "t3"])
          .list) = some x ∧
      x.halted = none ∧ x.loops.length = 3 ∧
      commands x.shared.out = [["/system/identity/print"], ["/system/identity/print"],
        ["/system/identity/print"]] :=
  ⟨_, rfl, rfl, rfl, by decide⟩

/-! ## A goroutine running alone does what the source function does -/

theorem exec_println_all (D : Device σ) (re : List Sentence) (s : State σ) :
    exec_prog D (re.foldr (fun r k => .println (map_index r "ssid") k) .ret) s =
      .running (re.foldl (fun st r => emit st (.println (map_index r "ssid"))) s) := by
  induction re generalizing s with
  | nil => rfl
  | cons r rs ih => simp [exec_prog, ih]

/-- Run without interruption, the step-by-step form of each subcommand's hook
is the hook. -/
theorem exec_prog_eq (D : Device σ) (cmd : Command) (s : State σ) :
    exec_prog D cmd.prog s = cmd.Run D s := by
  cases cmd with
  | list =>
    simp only [Command.prog, Command.Run, list_networks_prog, list_networks, exec_prog]
    cases router_client_Run D s ["/interface/wireless/print"] with
    | none => rfl
    | some r =>
      obtain ⟨r, s1⟩ := r
      cases r <;> simp [exec_prog, exec_println_all]
  | create ssid password =>
    simp only [Command.prog, Command.Run, create_network_prog, create_network, exec_prog]
    cases router_client_Run D s ["/interface/wireless/print", "?ssid=" ++ ssid] with
    | none => rfl
    | some r =>
      obtain ⟨r, s1⟩ := r
      cases r with
      | error e => simp [exec_prog]
      | ok a =>
        simp only [exec_prog]
        cases router_client_Run D s1 ["/interface/wireless/security-profiles/add",
          "=name=" ++ ssid, "=wpa2-pre-shared-key=" ++ password] with
        | none => rfl
        | some r =>
          obtain ⟨r, s2⟩ := r
          cases r with
          | error e => simp [exec_prog]
          | ok a =>
            simp only [exec_prog]
            cases router_client_Run D s2 ["/interface/wireless/add", "=name=" ++ ssid,
              "=ssid=" ++ ssid, "=security-profile=" ++ ssid, "=master-interface=wlan1"] with
            | none => rfl
            | some r =>
              obtain ⟨r, s3⟩ := r
              cases r <;> simp [exec_prog]
  | update ssid property v =>
    simp only [Command.prog, Command.Run, update_network_prog, update_network, exec_prog]
    cases router_client_Run D s ["/interface/wireless/print", "?ssid=" ++ ssid] with
    | none => rfl
    | some r =>
      obtain ⟨r, s1⟩ := r
      cases r with
      | error e => simp [exec_prog]
      | ok a =>
        simp only []
        by_cases h1 : property = "ssid"
        · simp only [h1, if_true, exec_prog]
          cases router_client_Run D s1 ["/interface/wireless/set", "?ssid=" ++ ssid,
            "=ssid=" ++ v] with
          | none => rfl
          | some r =>
            obtain ⟨r, s2⟩ := r
            cases r <;> simp [exec_prog, update_report, err_of]
        · by_cases h2 : property = "password"
          · subst h2
            have hne : ¬ ("password" = "ssid") := by decide
            simp only [hne, if_true, if_false, exec_prog]
            cases router_client_Run D s1 ["/interface/wireless/security-profiles/set",
              "?name=" ++ ssid, "=wpa2-pre-shared-key=" ++ v] with
            | none => rfl
            | some r =>
              obtain ⟨r, s2⟩ := r
              cases r <;> simp [exec_prog, update_report, err_of]
          · simp [h1, h2, exec_prog, update_report]
  | remove ssid =>
    simp only [Command.prog, Command.Run, remove_network_prog, remove_network, exec_prog]
    cases router_client_Run D s ["/interface/wireless/remove", "?ssid=" ++ ssid] with
    | none => rfl
    | some r =>
      obtain ⟨r, s1⟩ := r
      cases r <;> simp [exec_prog]

theorem run_replicate_succ (D : Device σ) (t : Tid) (n : Nat) (x y : Sys σ)
    (h : step D t x = some y) :
    run D (List.replicate (n + 1) t) x = run D (List.replicate n t) y := by
  simp [List.replicate_succ, run, h]

/-- The main goroutine, stepping alone through a hook, ends where the hook run
without interruption ends. -/
theorem hook_steps (D : Device σ) (p : Prog) :
    ∀ x : Sys σ, x.halted = none → x.main = .hook p →
      ∃ n y, run D (List.replicate n .main) x = some y ∧ y.loops = x.loops ∧
        ((∃ s1, exec_prog D p x.shared = .running s1 ∧ y.shared = s1 ∧
            y.main = .hook .ret ∧ y.halted = none) ∨
          (∃ s1, exec_prog D p x.shared = .panicked s1 ∧ y.shared = s1 ∧
            y.halted = some .panic)) := by
  induction p with
  | ret =>
    intro x hh hm
    exact ⟨0, x, rfl, rfl, Or.inl ⟨_, rfl, rfl, hm, hh⟩⟩
  | println line k ih =>
    intro x hh hm
    have hs : step D .main x =
        some { x with shared := emit x.shared (.println line), main := .hook k } := by
      simp [step, hh, hm, main_step]
    obtain ⟨n, y, hr, hl, hy⟩ :=
      ih { x with shared := emit x.shared (.println line), main := .hook k } hh rfl
    exact ⟨n + 1, y, by rw [run_replicate_succ D .main n x _ hs]; exact hr, hl,
      by simpa [exec_prog] using hy⟩
  | red msg k ih =>
    intro x hh hm
    have hs : step D .main x =
        some { x with shared := emit x.shared (.red msg), main := .hook k } := by
      simp [step, hh, hm, main_step]
    obtain ⟨n, y, hr, hl, hy⟩ :=
      ih { x with shared := emit x.shared (.red msg), main := .hook k } hh rfl
    exact ⟨n + 1, y, by rw [run_replicate_succ D .main n x _ hs]; exact hr, hl,
      by simpa [exec_prog] using hy⟩
  | green msg k ih =>
    intro x hh hm
    have hs : step D .main x =
        some { x with shared := emit x.shared (.green msg), main := .hook k } := by
      simp [step, hh, hm, main_step]
    obtain ⟨n, y, hr, hl, hy⟩ :=
      ih { x with shared := emit x.shared (.green msg), main := .hook k } hh rfl
    exact ⟨n + 1, y, by rw [run_replicate_succ D .main n x _ hs]; exact hr, hl,
      by simpa [exec_prog] using hy⟩
  | run sentence k ih =>
    intro x hh hm
    have hs1 : step D .main x =
        some { x with main := .call x.shared.router_client sentence k } := by
      simp [step, hh, hm, main_step]
    cases hc : x.shared.router_client with
    | none =>
      have hs2 : step D .main { x with main := .call x.shared.router_client sentence k } =
          some { x with main := .call x.shared.router_client sentence k,
                        halted := some .panic } := by
        simp [step, hh, hc, main_step]
      refine ⟨2, { x with main := .call x.shared.router_client sentence k,
                          halted := some .panic }, ?_, rfl, Or.inr ⟨x.shared, ?_, rfl, rfl⟩⟩
      · rw [run_replicate_succ D .main 1 x _ hs1, run_replicate_succ D .main 0 _ _ hs2]
        rfl
      · simp [exec_prog, router_client_Run, hc]
    | some c =>
      have hs2 : step D .main { x with main := .call x.shared.router_client sentence k } =
          some { x with
            shared := { emit x.shared (.run c sentence) with
              world := (D.Run x.shared.world c sentence).2 }
            main := .hook (k (D.Run x.shared.world c sentence).1) } := by
        simp [step, hh, hc, main_step]
      obtain ⟨n, y, hr, hl, hy⟩ := ih (D.Run x.shared.world c sentence).1
        { x with
          shared := { emit x.shared (.run c sentence) with
            world := (D.Run x.shared.world c sentence).2 }
          main := .hook (k (D.Run x.shared.world c sentence).1) } hh rfl
      refine ⟨n + 2, y, ?_, hl, ?_⟩
      · rw [run_replicate_succ D .main (n + 1) x _ hs1, run_replicate_succ D .main n _ _ hs2]
        exact hr
      · simpa [exec_prog, router_client_Run, hc] using hy

theorem set_same {α : Type} (l : List α) (i : Nat) (a : α) (h : l[i]? = some a) :
    l.set i a = l := by
  induction l generalizing i with
  | nil => rfl
  | cons x xs ih =>
    cases i with
    | zero => simp at h; simp [h]
    | succ i => simp at h; simp [ih i h]

/-- The main goroutine, stepping alone through `PersistentPreRun`, ends where
`init_routeros_connection` run without interruption ends: after four steps at
the hook with one liveness goroutine started, or after five steps with the
process exited. -/
theorem connect_steps (D : Device σ) (s : State σ) (cmd : Command) :
    (∀ s1, init_routeros_connection D s = .running s1 →
      run D (List.replicate 4 .main) (boot s cmd) =
        some { shared := s1, cmd := cmd, main := .hook cmd.prog, loops := [.sleep],
               halted := none }) ∧
    (∀ code s1, init_routeros_connection D s = .exited code s1 →
      run D (List.replicate 5 .main) (boot s cmd) =
        some { shared := s1, cmd := cmd, main := .connect .os_exit, loops := [],
               halted := some (.exit code) }) ∧
    (∀ s1, init_routeros_connection D s ≠ .panicked s1) := by
  cases hd : (D.Dial s.world (full_address s) s.username s.password).1 with
  | error err =>
    rw [init_error D s err hd]
    unfold full_address at hd
    refine ⟨by simp, ?_, by simp⟩
    intro code s1 h
    simp only [Outcome.exited.injEq] at h
    obtain ⟨rfl, rfl⟩ := h
    simp [List.replicate, run, step, boot, main_step, init_step, emit, hd, full_address]
  | ok c =>
    rw [init_ok D s c hd]
    unfold full_address at hd
    refine ⟨?_, by simp, by simp⟩
    intro s1 h
    simp only [Outcome.running.injEq] at h
    subst h
    simp [List.replicate, run, step, boot, main_step, init_step, emit, hd, full_address]

/-- A liveness goroutine at the top of its loop, stepping alone through one
iteration, ends where `keep_alive_iteration` run without interruption ends: back
at the top of the loop, with one more goroutine started if it reconnected, or
with the process stopped. -/
theorem iteration_steps (D : Device σ) (x : Sys σ) (i : Nat) (hh : x.halted = none)
    (hi : x.loops[i]? = some .sleep) :
    ∃ n y, run D (List.replicate n (.loop i)) x = some y ∧ y.main = x.main ∧
      match keep_alive_iteration D x.shared with
      | .running s1 =>
        y.shared = s1 ∧ y.halted = none ∧ (y.loops = x.loops ∨ y.loops = x.loops ++ [.sleep])
      | .exited code s1 => y.shared = s1 ∧ y.halted = some (.exit code)
      | .panicked s1 => y.shared = s1 ∧ y.halted = some .panic := by
  have hlt : i < x.loops.length := by
    obtain ⟨h, _⟩ := List.getElem?_eq_some.mp hi
    exact h
  obtain ⟨sh, cmd, mpc, loops, halted⟩ := x
  simp only at hh hi hlt
  subst hh
  cases hc : sh.router_client with
  | none =>
    refine ⟨3, ?_⟩
    simp [List.replicate, run, step, hi, loop_step, hlt, hc, emit, keep_alive_iteration,
      router_client_Run]
  | some c =>
    cases hp : (D.Run sh.world c ["/system/identity/print"]).1 with
    | ok r =>
      refine ⟨3, ?_⟩
      rw [iteration_probe_ok D sh c r hc hp]
      simp [List.replicate, run, step, hi, loop_step, hlt, hc, emit, hp, List.set_set,
        set_same loops i .sleep hi]
    | error perr =>
      cases hd : (D.Dial (D.Run sh.world c ["/system/identity/print"]).2
          (sh.address ++ ":" ++ fmt_d sh.port) sh.username sh.password).1 with
      | error err =>
        refine ⟨9, ?_⟩
        rw [iteration_probe_failed D sh c perr hc hp,
          init_error D (after_failed_probe D sh c perr) err hd]
        simp [List.replicate, run, step, hi, loop_step, hlt, hc, emit, hp, init_step, hd,
          after_failed_probe, full_address]
      | ok c1 =>
        refine ⟨8, ?_⟩
        rw [iteration_probe_failed D sh c perr hc hp,
          init_ok D (after_failed_probe D sh c perr) c1 hd]
        simp [List.replicate, run, step, hi, loop_step, hlt, hc, emit, hp, init_step, hd,
          after_failed_probe, full_address, List.set_set, set_same loops i .sleep hi]

end MikrotikWifi
